import Mathlib

/-!
Shallow embedding of the scriptharness action/listener core
(src/scriptharness/script.py, src/scriptharness/log.py,
src/scriptharness/__init__.py), with theorems settling the frozen claims
about the natural-language specification of the package.

Modelling conventions:
  - Python values crossing the boundaries of interest are modelled by the
    small inductive `PyVal` (None, ints, strings).
  - A Python callable that may raise is modelled by a Lean function
    returning an explicit result variant (`FuncResult`, `PyResult`).
  - Python dicts are modelled by association lists; `time.time()` by an
    abstract clock `Nat -> Nat` sampled at successive indices; logging by a
    list of emitted `LogRecord` values carrying the level, the logger name,
    the raw message template and the substitution mapping (rendering of
    percent-style templates is done by the Python logging library and is
    kept symbolic as template + substitutions).
  - A raised exception escaping a function is an `Except.error` / a
    dedicated outcome constructor.
-/

namespace Scriptharness

/-- Python logging level DEBUG = 10. -/
def DEBUG : Nat := 10

/-- Python logging level INFO = 20. -/
def INFO : Nat := 20

/-- Python logging level ERROR = 40. -/
def ERROR : Nat := 40

/-- Python logging level CRITICAL = 50. -/
def CRITICAL : Nat := 50

/-- Python values that cross the modelled boundaries: None, integers and
strings. -/
inductive PyVal where
  | none : PyVal
  | int : Int → PyVal
  | str : String → PyVal
deriving DecidableEq

/-- The shared config mapping (scriptharness.structures.LoggingDict wraps a
plain mapping; the claims only read it or test its emptiness). -/
abbrev Config := List (String × PyVal)

/-- Result of invoking an action function: a normal return, a raised
ScriptHarnessError (the recoverable operation-error condition) or a raised
ScriptHarnessFatal (the fatal condition), each carrying its message. -/
inductive FuncResult where
  | ret : PyVal → FuncResult
  | raiseError : String → FuncResult
  | raiseFatal : String → FuncResult

/-- A record emitted through the logging module: level, logger name, the
message template and the percent-substitution mapping passed alongside it. -/
structure LogRecord where
  level : Nat
  logger : String
  msg : String
  args : List (String × String)
deriving DecidableEq

/-- STRINGS for actions, script.py lines 26-34: the per-action log message
templates. -/
def STRINGS_action : List (String × String) :=
  [("run_message", "Running action %(name)s"),
   ("skip_message", "Skipping action %(name)s"),
   ("error_message", "Action %(name)s error!"),
   ("fatal_message", "Fatal %(name)s exception: %(exc_info)s"),
   ("success_message", "Action %(name)s: finished successfully")]

/-- STATUSES, script.py lines 35-39: constants used for action statuses. -/
def STATUSES : List (String × Int) :=
  [("success", 0), ("error", 1), ("fatal", -1)]

/-- VALID_LISTENER_TIMING, script.py lines 40-46. -/
def VALID_LISTENER_TIMING : List String :=
  ["pre_run", "post_run", "pre_action", "post_action", "post_fatal"]

/-- Dict lookup with the string default used for template tables (every
lookup performed by the modelled code is on a present key). -/
def strGet (d : List (String × String)) (k : String) : String :=
  (d.lookup k).getD ""

/-- The history dict of an Action, script.py line 66: initialised to
a bare timestamps table, so every field starts absent.  An absent
field models a missing dict key (status undefined before the first run). -/
structure History where
  start_time : Option Nat
  end_time : Option Nat
  return_value : Option PyVal
  status : Option Int
deriving DecidableEq

/-- The empty history an Action is constructed with. -/
def History.initial : History :=
  { start_time := Option.none, end_time := Option.none,
    return_value := Option.none, status := Option.none }

/-- Action, script.py lines 49-72.  The callable is taken directly (the
dynamic globals() lookup of `__init__` resolves a callable or raises before
any run; claims about construction failure are out of scope, so the model
takes the resolved callable). -/
structure Action where
  name : String
  enabled : Bool
  strings : List (String × String)
  logger_name : String
  function : Config → FuncResult
  history : History

/-- Action.__init__, script.py lines 61-72, applied to an explicit callable:
copies the STRINGS table, derives the logger name from the action name and
starts with an empty history. -/
def Action.init (name : String) (function : Config → FuncResult)
    (enabled : Bool) : Action :=
  { name := name, enabled := enabled, strings := STRINGS_action,
    logger_name := "scriptharness.script." ++ name,
    function := function, history := History.initial }

/-- An exception escaping Action.run_function. -/
inductive Raised where
  | err : String → Raised
  | fatal : String → Raised

/-- Action.run_function, script.py lines 74-81: stores the wrapped
function's return value into history["return_value"]; having no return
statement of its own, the method itself returns Python None (the second
component).  An exception raised by the wrapped function propagates without
touching the history. -/
def Action.run_function (a : Action) (config : Config) :
    Except Raised (History × PyVal) :=
  match a.function config with
  | FuncResult.ret v =>
      Except.ok ({ a.history with return_value := some v }, PyVal.none)
  | FuncResult.raiseError e => Except.error (Raised.err e)
  | FuncResult.raiseFatal e => Except.error (Raised.fatal e)

/-- How Action.run terminates: a normal return (of history["status"]) or a
re-raised ScriptHarnessFatal. -/
inductive RunResult where
  | returned : RunResult
  | raisedFatal : String → RunResult
deriving DecidableEq

/-- Action.run, script.py lines 83-107.  `clock` abstracts time.time();
index 0 is the sample taken for start_time, index 1 the one taken for
end_time.  Returns the mutated Action, the log records emitted, and the
way control leaves run().  Mirrors the source faithfully, including
line 92, which assigns the return of run_function (Python None) over the
value run_function just stored, and the absence of a finally block, so the
end_time assignment on line 106 is skipped when the fatal branch re-raises. -/
def Action.run (a : Action) (config : Config) (clock : Nat → Nat) :
    Action × List LogRecord × RunResult :=
  let a0 : Action :=
    { a with history := { a.history with start_time := some (clock 0) } }
  match a0.run_function config with
  | Except.ok (h1, ret) =>
      let h2 := { h1 with return_value := some ret }
      let h3 := { h2 with status := STATUSES.lookup "success" }
      let lr : LogRecord :=
        { level := INFO, logger := a0.logger_name,
          msg := strGet a0.strings "success_message",
          args := [("name", a0.name)] }
      let h4 := { h3 with end_time := some (clock 1) }
      ({ a0 with history := h4 }, [lr], RunResult.returned)
  | Except.error (Raised.err _) =>
      let h3 := { a0.history with status := STATUSES.lookup "error" }
      let lr : LogRecord :=
        { level := ERROR, logger := a0.logger_name,
          msg := strGet a0.strings "error_message",
          args := [("name", a0.name)] }
      let h4 := { h3 with end_time := some (clock 1) }
      ({ a0 with history := h4 }, [lr], RunResult.returned)
  | Except.error (Raised.fatal e) =>
      let h3 := { a0.history with status := STATUSES.lookup "fatal" }
      let lr : LogRecord :=
        { level := CRITICAL, logger := a0.logger_name,
          msg := strGet a0.strings "fatal_message",
          args := [("name", a0.name), ("exc_info", e)] }
      ({ a0 with history := h3 }, [lr], RunResult.raisedFatal e)

/-- A listener callback, identified by its qualified name (the model only
tracks which callback is invoked, when, and for which action). -/
abbrev Listener := String

/-- The listeners dict of a Script, script.py lines 267-269: a mapping from
timing to the ordered list of (listener, action_names) pairs. -/
abbrev Listeners := List (String × List (Listener × Option (List String)))

/-- Script.__init__ listener initialisation, script.py lines 267-269: one
empty list per valid timing. -/
def initListeners : Listeners :=
  VALID_LISTENER_TIMING.map (fun t => (t, []))

/-- Builds the listeners dict from its five per-timing lists, in the key
order produced by Script.__init__. -/
def mkListeners (pre_run post_run pre_action post_action post_fatal :
    List (Listener × Option (List String))) : Listeners :=
  [("pre_run", pre_run), ("post_run", post_run),
   ("pre_action", pre_action), ("post_action", post_action),
   ("post_fatal", post_fatal)]

/-- Python truthiness of the action_names argument: None and the empty
iterable are falsy. -/
def truthyNames : Option (List String) → Bool
  | Option.none => false
  | some l => !l.isEmpty

/-- Substring search on character lists: does the pattern occur as a
contiguous run of the text? -/
def containsSub (pat : List Char) : List Char → Bool
  | [] => pat.isEmpty
  | c :: rest => pat.isPrefixOf (c :: rest) || containsSub pat rest

/-- The substring test `'action' in timing` from script.py line 345. -/
def containsAction (timing : String) : Bool :=
  containsSub "action".toList timing.toList

/-- Appends an entry to the list stored under `timing`, modelling
`self.listeners[timing].append(...)` (script.py line 353); the key is
always present, having been initialised in `__init__`. -/
def appendListener (ls : Listeners) (timing : String)
    (entry : Listener × Option (List String)) : Listeners :=
  ls.map (fun p => if p.1 = timing then (p.1, p.2 ++ [entry]) else p)

/-- Reads the listener list for a timing (dict access on an always-present
key). -/
def getTiming (ls : Listeners) (t : String) :
    List (Listener × Option (List String)) :=
  (ls.lookup t).getD []

/-- Script.add_listener, script.py lines 323-353: validates the timing
against VALID_LISTENER_TIMING, rejects a truthy action_names for a timing
not containing the substring "action", and otherwise appends
(listener, action_names) to the list for that timing.  The debug log line
is omitted as irrelevant to the registry state. -/
def Script.add_listener (ls : Listeners) (listener : Listener)
    (timing : String) (action_names : Option (List String)) :
    Except String Listeners :=
  if timing ∉ VALID_LISTENER_TIMING then
    Except.error "Invalid timing for add_listener!"
  else if truthyNames action_names && !containsAction timing then
    Except.error "Only specify action_names for pre/post action timing!"
  else
    Except.ok (appendListener ls timing (listener, action_names))

/-- Python truthiness of the config slot: the class default None is falsy;
an assigned LoggingDict is a dict and is truthy iff non-empty. -/
def truthyConfig : Option Config → Bool
  | Option.none => false
  | some d => !d.isEmpty

/-- The Script state the claims touch: the write-once config slot, the
action tuple and the listeners dict (script.py lines 244-272). -/
structure Script where
  config : Option Config
  actions : List Action
  listeners : Listeners

/-- Script.__setattr__, script.py lines 274-279, specialised to the name
"config" (for which the guard condition `name == 'config'` holds): raises
ScriptHarnessException when `self.config` is truthy, otherwise performs the
ordinary attribute assignment. -/
def Script.setattr_config (s : Script) (value : Config) :
    Except String Script :=
  if truthyConfig s.config then
    Except.error "Changing script config after config is already set!"
  else
    Except.ok { s with config := some value }

/-- The actions attribute of the parsed argparse Namespace, as seen by
Script.enable_actions: the attribute can be missing altogether (a parser
without the --actions option), present with value None (the argparse
default when --actions is not passed), or present with the list of chosen
names. -/
inductive ParsedActions where
  | absent : ParsedActions
  | noneAttr : ParsedActions
  | given : List String → ParsedActions

/-- Script.enable_actions, script.py lines 310-321: if the Namespace has an
actions attribute, every action becomes enabled iff its name is in
parsed_args.actions.  When the attribute is present but None (argparse
default), the membership test `action.name in None` raises TypeError as
soon as the loop body first executes. -/
def Script.enable_actions (actions : List Action) (parsed : ParsedActions) :
    Except String (List Action) :=
  match parsed with
  | ParsedActions.absent => Except.ok actions
  | ParsedActions.noneAttr =>
      if actions.isEmpty then Except.ok actions
      else Except.error "TypeError: argument of type NoneType is not iterable"
  | ParsedActions.given names =>
      Except.ok (actions.map (fun a =>
        { a with enabled := names.contains a.name }))

/-- Observable events of a script run: a listener being invoked (with the
timing and, for action-scoped timings, the action it is invoked for), an
action being run, an action being skipped. -/
inductive Event where
  | callListener : Listener → String → Option String → Event
  | ranAction : String → Event
  | skippedAction : String → Event
deriving DecidableEq

/-- How Script.run terminates: normal completion or fatal propagation. -/
inductive ScriptOutcome where
  | completed : ScriptOutcome
  | fatal : String → ScriptOutcome
deriving DecidableEq

/-- Modelled from the spec: whether a registered pre_action/post_action
listener fires for a given action — "every listener registered with no
filter, plus every listener whose filter set includes this action's name"
(spec 4.2 step 2b); no filter means a falsy action_names (None or empty),
matching the truthiness convention of add_listener. -/
def listenerMatches (names : Option (List String)) (actionName : String) :
    Bool :=
  match names with
  | Option.none => true
  | some l => l.isEmpty || l.contains actionName

/-- Modelled from the spec: the per-action loop of the Script.run dispatch
contract (spec 4.2 run() steps 2a-2d) — the body of Script.run in
src/scriptharness/script.py (lines 355-360) is a stub (`pass` under TODO
comments), so the dispatch is taken from the spec.  For each action in
order: a disabled action is skipped with no action-scoped listeners; an
enabled action gets its matching pre_action listeners (registration order),
then Action.run (the source method), then, if run re-raised the fatal
condition, every post_fatal listener unfiltered in registration order and
the fatal condition aborts the remaining sequence; otherwise the matching
post_action listeners fire and the loop continues.  The Nat argument is the
clock offset: each executed action samples two fresh clock indices. -/
def runActionsLoop (ls : Listeners) (config : Config) (clock : Nat → Nat) :
    List Action → Nat → List Event × List Action × ScriptOutcome
  | [], _ => ([], [], ScriptOutcome.completed)
  | a :: rest, t =>
    if a.enabled then
      let preEvents :=
        ((getTiming ls "pre_action").filter
          (fun p => listenerMatches p.2 a.name)).map
          (fun p => Event.callListener p.1 "pre_action" (some a.name))
      match a.run config (fun k => clock (t + k)) with
      | (a1, _, RunResult.raisedFatal e) =>
          let fatalEvents :=
            (getTiming ls "post_fatal").map
              (fun p => Event.callListener p.1 "post_fatal" Option.none)
          (preEvents ++ [Event.ranAction a.name] ++ fatalEvents,
           a1 :: rest, ScriptOutcome.fatal e)
      | (a1, _, RunResult.returned) =>
          let postEvents :=
            ((getTiming ls "post_action").filter
              (fun p => listenerMatches p.2 a.name)).map
              (fun p => Event.callListener p.1 "post_action" (some a.name))
          let (evs, acts, out) := runActionsLoop ls config clock rest (t + 2)
          (preEvents ++ [Event.ranAction a.name] ++ postEvents ++ evs,
           a1 :: acts, out)
    else
      let (evs, acts, out) := runActionsLoop ls config clock rest t
      (Event.skippedAction a.name :: evs, a :: acts, out)

/-- Modelled from the spec: Script.run — the source body (script.py lines
355-360) is a `pass` stub, so the orchestration contract is taken from the
spec (4.2 run() steps 1-3): every pre_run listener in registration order,
then the action loop, then every post_run listener in registration order
unless the run aborted through fatal propagation. -/
def Script.run (ls : Listeners) (acts : List Action) (config : Config)
    (clock : Nat → Nat) : List Event × List Action × ScriptOutcome :=
  let preRun :=
    (getTiming ls "pre_run").map
      (fun p => Event.callListener p.1 "pre_run" Option.none)
  let (evs, acts1, out) := runActionsLoop ls config clock acts 0
  let postRun :=
    match out with
    | ScriptOutcome.completed =>
        (getTiming ls "post_run").map
          (fun p => Event.callListener p.1 "post_run" Option.none)
    | ScriptOutcome.fatal _ => []
  (preRun ++ evs ++ postRun, acts1, out)

/-- Result of calling the function wrapped by LogMethod: a normal return or
a raised exception (which the decorator lets propagate unmodified). -/
inductive PyResult where
  | ret : PyVal → PyResult
  | raise : String → PyResult

/-- The replacement dictionary built by LogMethod.set_repl_dict (log.py
lines 201-219): function name, positional args, keyword args, and — once
the wrapped call returned — the return value. -/
structure ReplDict where
  func_name : String
  args : List PyVal
  kwargs : List (String × PyVal)
  return_value : Option PyVal

/-- The LogMethod configuration after construction (the keys of
LogMethod.default_config, log.py lines 115-124).  detect_error_cb receives
the observable per-call state (the replacement dict, return value
included), standing in for the LogMethod instance the source passes. -/
structure LMConfig where
  level : Nat
  error_level : Nat
  logger_name : String
  pre_msg : String
  post_success_msg : String
  post_failure_msg : String
  raise_on_error : Bool
  detect_error_cb : Option (ReplDict → Bool)

/-- LogMethod.default_config, log.py lines 115-124. -/
def LogMethod.default_config : LMConfig :=
  { level := INFO, error_level := ERROR,
    logger_name := "{func_name}",
    pre_msg := "%(func_name)s arguments were: %(args)s %(kwargs)s",
    post_success_msg := "%(func_name)s completed.",
    post_failure_msg := "%(func_name)s failed.",
    raise_on_error := false, detect_error_cb := Option.none }

/-- Python str.format on the templates the decorator renders
(logger_name and the failure message): the only placeholder the default
templates can carry is the function name. -/
def formatFuncName (template : String) (r : ReplDict) : String :=
  template.replace "{func_name}" r.func_name

/-- A record logged by the decorator: logger name (already rendered),
level, the message template and the replacement dict passed for
percent-interpolation by the logging library. -/
structure LMLogRecord where
  logger : String
  level : Nat
  msg : String
  repl : ReplDict

/-- How the wrapped call terminates: the original return value, a
ScriptHarnessFailure raised by post_func (carrying the rendered failure
message), or an exception of the wrapped function propagating unmodified. -/
inductive CallResult where
  | ok : PyVal → CallResult
  | failure : String → CallResult
  | funcExc : String → CallResult

/-- The wrapped_func closure returned by LogMethod.__call__ (log.py lines
186-198) together with post_func (lines 231-249): builds the replacement
dict, logs the pre-call message, invokes the wrapped function (exceptions
propagate unmodified), records the return value, runs detect_error_cb if
set (detected_errors starts False), logs the success or failure message at
the corresponding level, and — when errors were detected and
raise_on_error is set — raises ScriptHarnessFailure with the rendered
failure message. -/
def LogMethod.wrapped_func (cfg : LMConfig) (func_name : String)
    (f : List PyVal → List (String × PyVal) → PyResult)
    (args : List PyVal) (kwargs : List (String × PyVal)) :
    List LMLogRecord × CallResult :=
  let repl0 : ReplDict :=
    { func_name := func_name, args := args, kwargs := kwargs,
      return_value := Option.none }
  let preRec : LMLogRecord :=
    { logger := formatFuncName cfg.logger_name repl0,
      level := cfg.level, msg := cfg.pre_msg, repl := repl0 }
  match f args kwargs with
  | PyResult.raise e => ([preRec], CallResult.funcExc e)
  | PyResult.ret v =>
      let repl1 := { repl0 with return_value := some v }
      let detected :=
        match cfg.detect_error_cb with
        | some cb => cb repl1
        | Option.none => false
      let postRec : LMLogRecord :=
        if detected then
          { logger := formatFuncName cfg.logger_name repl1,
            level := cfg.error_level, msg := cfg.post_failure_msg,
            repl := repl1 }
        else
          { logger := formatFuncName cfg.logger_name repl1,
            level := cfg.level, msg := cfg.post_success_msg,
            repl := repl1 }
      if detected && cfg.raise_on_error then
        ([preRec, postRec],
         CallResult.failure (formatFuncName cfg.post_failure_msg repl1))
      else
        ([preRec, postRec], CallResult.ok v)

/-- The aspects of a Python keyword-argument value that LogMethod.__init__
validation observes: None, a callable, or any other (non-callable,
non-None) value. -/
inductive KwVal where
  | vNone : KwVal
  | vCallable : KwVal
  | vOther : KwVal
deriving DecidableEq

/-- The recognised configuration keys: the keys of
LogMethod.default_config. -/
def LogMethod.default_config_keys : List String :=
  ["level", "error_level", "logger_name", "pre_msg", "post_success_msg",
   "post_failure_msg", "raise_on_error", "detect_error_cb"]

/-- The validation messages collected by LogMethod.__init__ (log.py lines
162-169): one message per unknown kwargs key, in kwargs order, then the
non-callable detect_error_cb message (kwargs.get returning None, i.e. an
absent or None-valued key, skips the callability check). -/
def LogMethod.init_messages (kwargs : List (String × KwVal)) : List String :=
  (kwargs.filterMap (fun p =>
    if p.1 ∈ LogMethod.default_config_keys then Option.none
    else some ("Unknown key " ++ p.1 ++ " in kwargs!")))
  ++ (match kwargs.lookup "detect_error_cb" with
      | some KwVal.vOther => ["detect_error_cb not callable!"]
      | _ => [])

/-- LogMethod.__init__ validation (log.py lines 162-171): collects every
message and raises ScriptHarnessException with the os.linesep-join of all
of them when any were produced. -/
def LogMethod.init (kwargs : List (String × KwVal)) : Except String Unit :=
  let messages := LogMethod.init_messages kwargs
  if messages.isEmpty then Except.ok ()
  else Except.error (String.intercalate "\n" messages)

/-- ScriptManager, scriptharness/__init__.py lines 23-47: the dict of
name-to-script and the class used to construct new scripts.  The script
type is abstract; script_class stands for `self.script_class(*args,
**kwargs)` applied to the (opaque) construction arguments. -/
structure ScriptManager (S : Type) where
  all_scripts : List (String × S)
  script_class : List PyVal → S

/-- ScriptManager.get_script, scriptharness/__init__.py lines 37-47: when
the name is unknown, construct a script from the supplied arguments and
store it under the name; return the stored script. -/
def ScriptManager.get_script {S : Type} (m : ScriptManager S)
    (name : String) (args : List PyVal) : S × ScriptManager S :=
  match m.all_scripts.lookup name with
  | some s => (s, m)
  | Option.none =>
      let s := m.script_class args
      (s, { m with all_scripts := m.all_scripts ++ [(name, s)] })

/-- Concrete fixture: an action whose function raises the fatal condition. -/
def exFatalAction : Action :=
  Action.init "build" (fun _ => FuncResult.raiseFatal "boom") true

/-- Concrete fixture: an action whose function returns the int 42. -/
def exSuccessAction : Action :=
  Action.init "package" (fun _ => FuncResult.ret (PyVal.int 42)) true

/-- Concrete fixture: an action whose function raises the recoverable
operation-error condition. -/
def exErrorAction : Action :=
  Action.init "upload" (fun _ => FuncResult.raiseError "oops") true

/-- Concrete fixture: an action that returns None, used where the function
body is irrelevant. -/
def exPlainAction : Action :=
  Action.init "clobber" (fun _ => FuncResult.ret PyVal.none) true

/-- Concrete fixture: a script whose config slot has been assigned an empty
(hence Python-falsy) config. -/
def exScriptEmptyCfg : Script :=
  { config := some [], actions := [], listeners := initListeners }

/-- Concrete fixture: a script whose config slot has been assigned a
non-empty config. -/
def exScriptFullCfg : Script :=
  { config := some [("a", PyVal.int 1)], actions := [],
    listeners := initListeners }

/-- C4: for every Action whose wrapped function raises the recoverable
operation-error condition, Action.run sets history status to ERROR (status
code 1), logs an error-level message naming the action, records end_time,
and returns without re-raising. -/
theorem c4_error_path (a : Action) (config : Config) (clock : Nat → Nat)
    (e : String) (h : a.function config = FuncResult.raiseError e) :
    a.run config clock =
      ({ a with history := { a.history with
           start_time := some (clock 0),
           status := some 1,
           end_time := some (clock 1) } },
       [{ level := ERROR, logger := a.logger_name,
          msg := strGet a.strings "error_message",
          args := [("name", a.name)] }],
       RunResult.returned) := by
  simp only [Action.run, Action.run_function, h]
  rfl

/-- Witness for c4_error_path at a concrete action. -/
theorem c4_witness :
    exErrorAction.run [] (fun k => k) =
      ({ exErrorAction with history := { exErrorAction.history with
           start_time := some 0,
           status := some 1,
           end_time := some 1 } },
       [{ level := ERROR, logger := exErrorAction.logger_name,
          msg := strGet exErrorAction.strings "error_message",
          args := [("name", exErrorAction.name)] }],
       RunResult.returned) :=
  c4_error_path exErrorAction [] (fun k => k) "oops" rfl

/-- C2 (amended): for every Action whose wrapped function raises the fatal
condition, Action.run sets history status to FATAL (status code -1), logs
a critical-level message whose substitutions include the causing condition,
and re-raises the fatal condition — but end_time is NOT recorded on this
path (the end_time assignment sits after the try/except with no finally, so
the re-raise skips it and history end_time keeps its prior, initially
absent, value). -/
theorem c2_fatal_path (a : Action) (config : Config) (clock : Nat → Nat)
    (e : String) (h : a.function config = FuncResult.raiseFatal e) :
    a.run config clock =
      ({ a with history := { a.history with
           start_time := some (clock 0),
           status := some (-1) } },
       [{ level := CRITICAL, logger := a.logger_name,
          msg := strGet a.strings "fatal_message",
          args := [("name", a.name), ("exc_info", e)] }],
       RunResult.raisedFatal e) := by
  simp only [Action.run, Action.run_function, h]
  rfl

/-- Counterexample to C2 as stated: at a concrete fatal action, run
re-raises the fatal condition yet records no end_time. -/
theorem c2_counterexample :
    (exFatalAction.run [] (fun k => k)).1.history.end_time = Option.none ∧
    (exFatalAction.run [] (fun k => k)).2.2 = RunResult.raisedFatal "boom" :=
  ⟨rfl, rfl⟩

/-- Witness for c2_fatal_path at a concrete action. -/
theorem c2_witness :
    exFatalAction.run [] (fun k => k) =
      ({ exFatalAction with history := { exFatalAction.history with
           start_time := some 0,
           status := some (-1) } },
       [{ level := CRITICAL, logger := exFatalAction.logger_name,
          msg := strGet exFatalAction.strings "fatal_message",
          args := [("name", exFatalAction.name), ("exc_info", "boom")] }],
       RunResult.raisedFatal "boom") :=
  c2_fatal_path exFatalAction [] (fun k => k) "boom" rfl

/-- C3 (code bug): at an action whose function returns 42, run_function
does store 42 into history, but Action.run line 92 then assigns
history["return_value"] = run_function(config), and run_function returns
Python None, so the stored value is clobbered: after run the history holds
status SUCCESS and return_value None, not 42, while the info-level success
message is logged as claimed. -/
theorem c3_return_value_clobbered :
    exSuccessAction.run_function [] =
      Except.ok ({ History.initial with return_value := some (PyVal.int 42) },
        PyVal.none) ∧
    (exSuccessAction.run [] (fun k => k)).1.history =
      { start_time := some 0, end_time := some 1,
        return_value := some PyVal.none, status := some 0 } ∧
    (exSuccessAction.run [] (fun k => k)).2.1 =
      [{ level := INFO, logger := "scriptharness.script.package",
         msg := "Action %(name)s: finished successfully",
         args := [("name", "package")] }] :=
  ⟨rfl, rfl, rfl⟩

/-- C5 (amended): assigning to the config slot of a Script whose assigned
config is Python-truthy (non-empty) raises the developer-facing
ScriptHarnessException; the guard of Script.__setattr__ tests the
truthiness of self.config, not its mere presence. -/
theorem c5_config_guard (s : Script) (d : Config) (v : Config)
    (hc : s.config = some d) (hd : d ≠ []) :
    s.setattr_config v =
      Except.error "Changing script config after config is already set!" := by
  cases d with
  | nil => exact absurd rfl hd
  | cons p t => simp [Script.setattr_config, truthyConfig, hc]

/-- Counterexample to C5 as stated: a Script whose config has already been
assigned (here an empty, Python-falsy config) accepts a second assignment,
which replaces the stored config instead of raising. -/
theorem c5_counterexample :
    exScriptEmptyCfg.setattr_config [("key", PyVal.int 1)] =
      Except.ok { exScriptEmptyCfg with config := some [("key", PyVal.int 1)] } :=
  rfl

/-- Witness for c5_config_guard at a concrete script. -/
theorem c5_witness :
    exScriptFullCfg.setattr_config [] =
      Except.error "Changing script config after config is already set!" :=
  c5_config_guard exScriptFullCfg [("a", PyVal.int 1)] [] rfl (by decide)

/-- C7 (code bug): enable_actions with an explicit actions list sets every
enabled flag to membership in that list, and a Namespace without the
attribute keeps the constructed defaults; but when the attribute is present
with value None — exactly what argparse produces when the script defines
--actions and the invocation names none — the membership test raises
TypeError instead of keeping the defaults. -/
theorem c7_enable_actions :
    Script.enable_actions [exPlainAction] ParsedActions.noneAttr =
      Except.error "TypeError: argument of type NoneType is not iterable" ∧
    Script.enable_actions [exPlainAction, exErrorAction]
        (ParsedActions.given ["upload"]) =
      Except.ok [{ exPlainAction with enabled := false },
                 { exErrorAction with enabled := true }] ∧
    Script.enable_actions [exPlainAction, exErrorAction]
        ParsedActions.absent =
      Except.ok [exPlainAction, exErrorAction] :=
  ⟨rfl, rfl, rfl⟩

/-- Appending an entry under a present key updates that key's list. -/
theorem lookup_appendListener_same (ls : Listeners) (timing : String)
    (entry : Listener × Option (List String))
    (cur : List (Listener × Option (List String)))
    (h : ls.lookup timing = some cur) :
    (appendListener ls timing entry).lookup timing = some (cur ++ [entry]) := by
  induction ls with
  | nil => simp [List.lookup] at h
  | cons p t ih =>
      obtain ⟨k, v⟩ := p
      by_cases hk : timing = k
      · subst hk
        simp [List.lookup_cons, appendListener] at h ⊢
        simp [h]
      · have hb : (timing == k) = false := beq_false_of_ne hk
        simp [List.lookup_cons, hb, appendListener, Ne.symm hk] at h ⊢
        simpa [appendListener] using ih h

/-- Appending an entry under one key leaves every other key's list
unchanged. -/
theorem lookup_appendListener_other (ls : Listeners) (timing t : String)
    (entry : Listener × Option (List String)) (ht : t ≠ timing) :
    (appendListener ls timing entry).lookup t = ls.lookup t := by
  induction ls with
  | nil => simp [appendListener]
  | cons p t' ih =>
      obtain ⟨k, v⟩ := p
      by_cases hk : k = timing
      · subst hk
        have hb : (t == k) = false := beq_false_of_ne ht
        simp [appendListener, List.lookup_cons, hb]
        simpa [appendListener] using ih
      · by_cases htk : t = k
        · subst htk
          simp [appendListener, hk, List.lookup_cons]
        · have hb : (t == k) = false := beq_false_of_ne htk
          simp [appendListener, hk, List.lookup_cons, hb]
          simpa [appendListener] using ih

/-- C6: add_listener rejects a timing outside VALID_LISTENER_TIMING,
rejects a non-empty action_names filter for any timing not containing
"action" (i.e. anything but pre_action/post_action among the valid
timings), and otherwise appends the (listener, action_names) pair at the
tail of the list for that timing, leaving every other timing's list
untouched. -/
theorem c6_add_listener
    (l1 l2 l3 l4 l5 : List (Listener × Option (List String)))
    (cb : Listener) (timing : String) (names : Option (List String)) :
    (timing ∉ VALID_LISTENER_TIMING →
      Script.add_listener (mkListeners l1 l2 l3 l4 l5) cb timing names =
        Except.error "Invalid timing for add_listener!") ∧
    (timing ∈ VALID_LISTENER_TIMING → truthyNames names = true →
      containsAction timing = false →
      Script.add_listener (mkListeners l1 l2 l3 l4 l5) cb timing names =
        Except.error "Only specify action_names for pre/post action timing!") ∧
    (timing ∈ VALID_LISTENER_TIMING →
      (truthyNames names = false ∨ containsAction timing = true) →
      Script.add_listener (mkListeners l1 l2 l3 l4 l5) cb timing names =
        Except.ok (appendListener (mkListeners l1 l2 l3 l4 l5) timing
          (cb, names)) ∧
      getTiming (appendListener (mkListeners l1 l2 l3 l4 l5) timing
          (cb, names)) timing =
        getTiming (mkListeners l1 l2 l3 l4 l5) timing ++ [(cb, names)] ∧
      ∀ t, t ∈ VALID_LISTENER_TIMING → t ≠ timing →
        getTiming (appendListener (mkListeners l1 l2 l3 l4 l5) timing
            (cb, names)) t =
          getTiming (mkListeners l1 l2 l3 l4 l5) t) := by
  refine ⟨?_, ?_, ?_⟩
  · intro h
    simp [Script.add_listener, h]
  · intro ht htr hca
    simp [Script.add_listener, ht, htr, hca]
  · intro ht hok
    have hcond : ¬(truthyNames names && !containsAction timing) = true := by
      rcases hok with h | h <;> simp [h]
    refine ⟨by simp [Script.add_listener, ht, hcond], ?_, ?_⟩
    · have hcur : (mkListeners l1 l2 l3 l4 l5).lookup timing =
          some (getTiming (mkListeners l1 l2 l3 l4 l5) timing) := by
        simp only [VALID_LISTENER_TIMING, List.mem_cons,
          List.not_mem_nil, or_false] at ht
        rcases ht with rfl | rfl | rfl | rfl | rfl <;> rfl
      simp [getTiming, lookup_appendListener_same _ _ _ _ hcur]
    · intro t htm htne
      simp [getTiming, lookup_appendListener_other _ _ _ _ htne]

/-- Witness for c6_add_listener: a rejected invalid timing, a rejected
filtered post_fatal listener, and an accepted filtered pre_action
listener. -/
theorem c6_witness :
    Script.add_listener (mkListeners [] [] [] [] []) "cb" "mid_run"
        Option.none =
      Except.error "Invalid timing for add_listener!" ∧
    Script.add_listener (mkListeners [] [] [] [] []) "cb" "post_fatal"
        (some ["build"]) =
      Except.error "Only specify action_names for pre/post action timing!" ∧
    Script.add_listener (mkListeners [] [] [] [] []) "cb" "pre_action"
        (some ["build"]) =
      Except.ok (appendListener (mkListeners [] [] [] [] []) "pre_action"
        ("cb", some ["build"])) :=
  ⟨(c6_add_listener [] [] [] [] [] "cb" "mid_run" Option.none).1
     (by decide),
   (c6_add_listener [] [] [] [] [] "cb" "post_fatal" (some ["build"])).2.1
     (by decide) (by decide) (by decide),
   ((c6_add_listener [] [] [] [] [] "cb" "pre_action" (some ["build"])).2.2
     (by decide) (Or.inr (by decide))).1⟩

/-- C8: through a LogMethod-wrapped call whose detect_error_cb reports
errors, the call logs the pre-call message, then the failure message at
error_level, and — with raise_on_error true — raises ScriptHarnessFailure
carrying the rendered failure message; with raise_on_error false it logs
the same two records and returns the wrapped function's original return
value. -/
theorem c8_log_decorator (cfg : LMConfig) (fn : String)
    (f : List PyVal → List (String × PyVal) → PyResult)
    (args : List PyVal) (kwargs : List (String × PyVal)) (v : PyVal)
    (cb : ReplDict → Bool)
    (hf : f args kwargs = PyResult.ret v)
    (hcb : cfg.detect_error_cb = some cb)
    (hd : cb { func_name := fn, args := args, kwargs := kwargs,
               return_value := some v } = true) :
    (cfg.raise_on_error = true →
      LogMethod.wrapped_func cfg fn f args kwargs =
        ([{ logger := formatFuncName cfg.logger_name
              { func_name := fn, args := args, kwargs := kwargs,
                return_value := Option.none },
            level := cfg.level, msg := cfg.pre_msg,
            repl := { func_name := fn, args := args, kwargs := kwargs,
                      return_value := Option.none } },
          { logger := formatFuncName cfg.logger_name
              { func_name := fn, args := args, kwargs := kwargs,
                return_value := some v },
            level := cfg.error_level, msg := cfg.post_failure_msg,
            repl := { func_name := fn, args := args, kwargs := kwargs,
                      return_value := some v } }],
         CallResult.failure (formatFuncName cfg.post_failure_msg
           { func_name := fn, args := args, kwargs := kwargs,
             return_value := some v }))) ∧
    (cfg.raise_on_error = false →
      LogMethod.wrapped_func cfg fn f args kwargs =
        ([{ logger := formatFuncName cfg.logger_name
              { func_name := fn, args := args, kwargs := kwargs,
                return_value := Option.none },
            level := cfg.level, msg := cfg.pre_msg,
            repl := { func_name := fn, args := args, kwargs := kwargs,
                      return_value := Option.none } },
          { logger := formatFuncName cfg.logger_name
              { func_name := fn, args := args, kwargs := kwargs,
                return_value := some v },
            level := cfg.error_level, msg := cfg.post_failure_msg,
            repl := { func_name := fn, args := args, kwargs := kwargs,
                      return_value := some v } }],
         CallResult.ok v)) := by
  constructor <;> intro hro <;>
    simp [LogMethod.wrapped_func, hf, hcb, hd, hro]

/-- Concrete fixture: an error-detection callback that always reports
errors. -/
def exDetectTrue : ReplDict → Bool := fun _ => true

/-- Concrete fixture: decorator config with raise_on_error and an
always-true detect_error_cb. -/
def exCfgRaise : LMConfig :=
  { LogMethod.default_config with
    raise_on_error := true,
    detect_error_cb := some exDetectTrue }

/-- Concrete fixture: decorator config with the default raise_on_error
(false) and an always-true detect_error_cb. -/
def exCfgNoRaise : LMConfig :=
  { LogMethod.default_config with detect_error_cb := some exDetectTrue }

/-- Concrete fixture: a wrapped function returning the int 7. -/
def exWrapped : List PyVal → List (String × PyVal) → PyResult :=
  fun _ _ => PyResult.ret (PyVal.int 7)

/-- Witness for c8_log_decorator at concrete configs, both with and
without raise_on_error. -/
theorem c8_witness :
    (LogMethod.wrapped_func exCfgRaise "fn" exWrapped [] []).2 =
      CallResult.failure (formatFuncName exCfgRaise.post_failure_msg
        { func_name := "fn", args := [], kwargs := [],
          return_value := some (PyVal.int 7) }) ∧
    (LogMethod.wrapped_func exCfgNoRaise "fn" exWrapped [] []).2 =
      CallResult.ok (PyVal.int 7) := by
  constructor
  · rw [(c8_log_decorator exCfgRaise "fn" exWrapped [] [] (PyVal.int 7)
      exDetectTrue rfl rfl rfl).1 rfl]
  · rw [(c8_log_decorator exCfgNoRaise "fn" exWrapped [] [] (PyVal.int 7)
      exDetectTrue rfl rfl rfl).2 rfl]

/-- C9: LogMethod construction with any unknown configuration key fails
with a developer-facing error whose joined message carries one entry for
every offending key (all keys are validated before failing), and a
present, non-None, non-callable detect_error_cb also fails construction
with its own collected message. -/
theorem c9_init_validation (kwargs : List (String × KwVal)) :
    ((kwargs.filterMap (fun p =>
        if p.1 ∈ LogMethod.default_config_keys then Option.none
        else some p.1)) ≠ [] →
      LogMethod.init kwargs =
        Except.error (String.intercalate "\n"
          (LogMethod.init_messages kwargs)) ∧
      ∀ p, p ∈ kwargs → p.1 ∉ LogMethod.default_config_keys →
        ("Unknown key " ++ p.1 ++ " in kwargs!") ∈
          LogMethod.init_messages kwargs) ∧
    (kwargs.lookup "detect_error_cb" = some KwVal.vOther →
      LogMethod.init kwargs =
        Except.error (String.intercalate "\n"
          (LogMethod.init_messages kwargs)) ∧
      "detect_error_cb not callable!" ∈ LogMethod.init_messages kwargs) := by
  constructor
  · intro h
    have hne : LogMethod.init_messages kwargs ≠ [] := by
      intro hmsg
      apply h
      rw [List.filterMap_eq_nil_iff]
      intro p hp
      by_cases hk : p.1 ∈ LogMethod.default_config_keys
      · simp [hk]
      · have hmem : ("Unknown key " ++ p.1 ++ " in kwargs!") ∈
            LogMethod.init_messages kwargs :=
          List.mem_append_left _
            (List.mem_filterMap.2 ⟨p, hp, by simp [hk]⟩)
        simp [hmsg] at hmem
    refine ⟨by simp [LogMethod.init, hne], ?_⟩
    intro p hp hk
    exact List.mem_append_left _
      (List.mem_filterMap.2 ⟨p, hp, by simp [hk]⟩)
  · intro hcb
    have hmem : "detect_error_cb not callable!" ∈
        LogMethod.init_messages kwargs := by
      unfold LogMethod.init_messages
      rw [hcb]
      exact List.mem_append_right _ (by simp)
    have hne : LogMethod.init_messages kwargs ≠ [] :=
      fun hmsg => by simp [hmsg] at hmem
    exact ⟨by simp [LogMethod.init, hne], hmem⟩

/-- Concrete fixture: decorator kwargs with two unknown keys and a
non-callable detect_error_cb. -/
def exKwargs : List (String × KwVal) :=
  [("foo", KwVal.vOther), ("bar", KwVal.vNone),
   ("detect_error_cb", KwVal.vOther)]

/-- Witness for c9_init_validation at concrete kwargs: construction fails
and the collected messages name both offending keys and the non-callable
callback. -/
theorem c9_witness :
    LogMethod.init exKwargs =
      Except.error (String.intercalate "\n"
        (LogMethod.init_messages exKwargs)) ∧
    ("Unknown key foo in kwargs!" ∈ LogMethod.init_messages exKwargs) ∧
    ("Unknown key bar in kwargs!" ∈ LogMethod.init_messages exKwargs) ∧
    ("detect_error_cb not callable!" ∈ LogMethod.init_messages exKwargs) :=
  ⟨((c9_init_validation exKwargs).1 (by decide)).1,
   ((c9_init_validation exKwargs).1 (by decide)).2
     ("foo", KwVal.vOther) (by decide) (by decide),
   ((c9_init_validation exKwargs).1 (by decide)).2
     ("bar", KwVal.vNone) (by decide) (by decide),
   ((c9_init_validation exKwargs).2 (by decide)).2⟩

/-- Appending a fresh key at the tail of an association list makes it
findable. -/
theorem lookup_append_fresh {S : Type} (l : List (String × S)) (n : String)
    (s : S) (h : l.lookup n = Option.none) :
    (l ++ [(n, s)]).lookup n = some s := by
  induction l with
  | nil => simp [List.lookup]
  | cons p t ih =>
      obtain ⟨k, v⟩ := p
      by_cases hk : n = k
      · subst hk
        rw [List.lookup_cons, beq_self_eq_true] at h
        exact absurd h (by simp)
      · have hb : (n == k) = false := beq_false_of_ne hk
        rw [List.lookup_cons, hb] at h
        rw [List.cons_append, List.lookup_cons, hb]
        exact ih h

/-- C10: the first get_script call for a fresh name constructs the script
from the supplied arguments and stores it under the name; every later call
with the same name returns that same stored script and leaves the manager
unchanged, whatever construction arguments it supplies. -/
theorem c10_get_script {S : Type} (m : ScriptManager S) (name : String)
    (a1 a2 : List PyVal) (h : m.all_scripts.lookup name = Option.none) :
    m.get_script name a1 =
      (m.script_class a1,
       { m with all_scripts :=
           m.all_scripts ++ [(name, m.script_class a1)] }) ∧
    ({ m with all_scripts := m.all_scripts ++ [(name, m.script_class a1)]
       } : ScriptManager S).get_script name a2 =
      (m.script_class a1,
       { m with all_scripts :=
           m.all_scripts ++ [(name, m.script_class a1)] }) := by
  constructor
  · simp [ScriptManager.get_script, h]
  · simp [ScriptManager.get_script, lookup_append_fresh _ _ _ h]

/-- Concrete fixture: an empty script manager over Nat-valued scripts
whose constructor records the argument count. -/
def exManager : ScriptManager Nat :=
  { all_scripts := [], script_class := fun args => args.length }

/-- Witness for c10_get_script at a concrete manager: the second call
ignores its new arguments and returns the stored script. -/
theorem c10_witness :
    exManager.get_script "root" [PyVal.int 5] =
      (1, { exManager with all_scripts := [("root", 1)] }) ∧
    ({ exManager with all_scripts := [("root", 1)] }
        : ScriptManager Nat).get_script "root" [] =
      (1, { exManager with all_scripts := [("root", 1)] }) :=
  c10_get_script exManager "root" [PyVal.int 5] [] rfl

/-- C1 (amended): for a script with enabled actions [A, B, C] where B's
function raises the fatal condition and A's returns normally, run()
invokes every pre_run listener, the matching pre_action listeners for A,
runs A, the matching post_action listeners for A, the matching pre_action
listeners for B, runs B (B's status becomes FATAL but — per the source
Action.run, which lacks a finally block — B's end_time is NOT recorded),
skips post_action listeners for B, invokes every post_fatal listener in
registration order unfiltered, re-raises the fatal condition, and never
invokes any listener or action step for C nor any post_run listener. -/
theorem c1_run_fatal_dispatch
    (l1 l2 l3 l4 l5 : List (Listener × Option (List String)))
    (config : Config) (clock : Nat → Nat)
    (fA fB fC : Config → FuncResult) (v : PyVal) (e : String)
    (hA : fA config = FuncResult.ret v)
    (hB : fB config = FuncResult.raiseFatal e) :
    Script.run (mkListeners l1 l2 l3 l4 l5)
        [Action.init "A" fA true, Action.init "B" fB true,
         Action.init "C" fC true] config clock =
      (l1.map (fun p => Event.callListener p.1 "pre_run" Option.none)
        ++ ((l3.filter (fun p => listenerMatches p.2 "A")).map
             (fun p => Event.callListener p.1 "pre_action" (some "A")))
        ++ [Event.ranAction "A"]
        ++ ((l4.filter (fun p => listenerMatches p.2 "A")).map
             (fun p => Event.callListener p.1 "post_action" (some "A")))
        ++ ((l3.filter (fun p => listenerMatches p.2 "B")).map
             (fun p => Event.callListener p.1 "pre_action" (some "B")))
        ++ [Event.ranAction "B"]
        ++ l5.map (fun p => Event.callListener p.1 "post_fatal" Option.none),
       [{ Action.init "A" fA true with history :=
            { start_time := some (clock 0), end_time := some (clock 1),
              return_value := some PyVal.none, status := some 0 } },
        { Action.init "B" fB true with history :=
            { start_time := some (clock 2), end_time := Option.none,
              return_value := Option.none, status := some (-1) } },
        Action.init "C" fC true],
       ScriptOutcome.fatal e) ∧
    (∀ cbn act, Event.callListener cbn "post_run" act ∉
      (Script.run (mkListeners l1 l2 l3 l4 l5)
        [Action.init "A" fA true, Action.init "B" fB true,
         Action.init "C" fC true] config clock).1) ∧
    (∀ cbn t, Event.callListener cbn t (some "C") ∉
      (Script.run (mkListeners l1 l2 l3 l4 l5)
        [Action.init "A" fA true, Action.init "B" fB true,
         Action.init "C" fC true] config clock).1) ∧
    Event.ranAction "C" ∉
      (Script.run (mkListeners l1 l2 l3 l4 l5)
        [Action.init "A" fA true, Action.init "B" fB true,
         Action.init "C" fC true] config clock).1 ∧
    Event.skippedAction "C" ∉
      (Script.run (mkListeners l1 l2 l3 l4 l5)
        [Action.init "A" fA true, Action.init "B" fB true,
         Action.init "C" fC true] config clock).1 := by
  have key : Script.run (mkListeners l1 l2 l3 l4 l5)
      [Action.init "A" fA true, Action.init "B" fB true,
       Action.init "C" fC true] config clock =
      (l1.map (fun p => Event.callListener p.1 "pre_run" Option.none)
        ++ ((l3.filter (fun p => listenerMatches p.2 "A")).map
             (fun p => Event.callListener p.1 "pre_action" (some "A")))
        ++ [Event.ranAction "A"]
        ++ ((l4.filter (fun p => listenerMatches p.2 "A")).map
             (fun p => Event.callListener p.1 "post_action" (some "A")))
        ++ ((l3.filter (fun p => listenerMatches p.2 "B")).map
             (fun p => Event.callListener p.1 "pre_action" (some "B")))
        ++ [Event.ranAction "B"]
        ++ l5.map (fun p => Event.callListener p.1 "post_fatal" Option.none),
       [{ Action.init "A" fA true with history :=
            { start_time := some (clock 0), end_time := some (clock 1),
              return_value := some PyVal.none, status := some 0 } },
        { Action.init "B" fB true with history :=
            { start_time := some (clock 2), end_time := Option.none,
              return_value := Option.none, status := some (-1) } },
        Action.init "C" fC true],
       ScriptOutcome.fatal e) := by
    simp [Script.run, runActionsLoop, Action.run, Action.run_function,
      Action.init, hA, hB, getTiming, mkListeners, History.initial,
      STATUSES, strGet, STRINGS_action, List.lookup_cons]
  refine ⟨key, ?_, ?_, ?_, ?_⟩ <;>
    first
      | (intro cbn act hmem
         rw [key] at hmem
         simp [List.mem_append, List.mem_map] at hmem)
      | (intro hmem
         rw [key] at hmem
         simp [List.mem_append, List.mem_map] at hmem)

/-- Concrete fixture: a registry with one listener per phase plus a
B-filtered pre_action listener. -/
def exListeners : Listeners :=
  mkListeners [("lr", Option.none)] [("lp", Option.none)]
    [("pa", Option.none), ("paB", some ["B"])] [("qa", Option.none)]
    [("pf", Option.none)]

/-- Concrete fixture: action A, returning the int 1. -/
def exRunA : Action :=
  Action.init "A" (fun _ => FuncResult.ret (PyVal.int 1)) true

/-- Concrete fixture: action B, raising the fatal condition. -/
def exRunB : Action :=
  Action.init "B" (fun _ => FuncResult.raiseFatal "boom") true

/-- Concrete fixture: action C, returning None. -/
def exRunC : Action :=
  Action.init "C" (fun _ => FuncResult.ret PyVal.none) true

/-- Counterexample to C1 as stated: at a concrete [A, B, C] run where B
raises the fatal condition, the run re-raises the fatal condition but B's
end_time is NOT recorded (the end_time assignment in Action.run sits after
the try/except with no finally, so the fatal re-raise skips it). -/
theorem c1_counterexample :
    ((Script.run exListeners [exRunA, exRunB, exRunC] []
        (fun k => k)).2.1.map (fun a => a.history.end_time)) =
      [some 1, Option.none, Option.none] ∧
    (Script.run exListeners [exRunA, exRunB, exRunC] [] (fun k => k)).2.2 =
      ScriptOutcome.fatal "boom" :=
  ⟨rfl, rfl⟩

/-- Witness for c1_run_fatal_dispatch at the concrete registry and
actions. -/
theorem c1_witness :
    Script.run exListeners [exRunA, exRunB, exRunC] [] (fun k => k) =
      ([Event.callListener "lr" "pre_run" Option.none,
        Event.callListener "pa" "pre_action" (some "A"),
        Event.ranAction "A",
        Event.callListener "qa" "post_action" (some "A"),
        Event.callListener "pa" "pre_action" (some "B"),
        Event.callListener "paB" "pre_action" (some "B"),
        Event.ranAction "B",
        Event.callListener "pf" "post_fatal" Option.none],
       [{ exRunA with history :=
            { start_time := some 0, end_time := some 1,
              return_value := some PyVal.none, status := some 0 } },
        { exRunB with history :=
            { start_time := some 2, end_time := Option.none,
              return_value := Option.none, status := some (-1) } },
        exRunC],
       ScriptOutcome.fatal "boom") :=
  (c1_run_fatal_dispatch [("lr", Option.none)] [("lp", Option.none)]
    [("pa", Option.none), ("paB", some ["B"])] [("qa", Option.none)]
    [("pf", Option.none)] [] (fun k => k)
    (fun _ => FuncResult.ret (PyVal.int 1))
    (fun _ => FuncResult.raiseFatal "boom")
    (fun _ => FuncResult.ret PyVal.none)
    (PyVal.int 1) "boom" rfl rfl).1

end Scriptharness
